import Mathlib

/-!
Verification development for the Kabadiwala waste-pickup marketplace
(Django project `kawadiwala`, app `core`).

Shallow embedding of the credit-ledger and payment-settlement logic of
`core/models.py`, `core/services.py` and `core/payment_views.py`.

Modelling conventions:
* Python `Decimal` values are embedded as `ℚ`.  All `Decimal` arithmetic
  appearing in the sources (`+`, `-`, `*`) is exact, so `ℚ` is a faithful
  carrier; `Decimal.quantize` is modelled explicitly as a rounding function.
* `Decimal.quantize(Decimal('0.01'))` uses the default rounding mode of the
  `decimal` module, `ROUND_HALF_EVEN`; it is embedded as `quantize2HalfEven`.
* Django model rows become structures holding exactly the fields the claims
  touch; a foreign key is embedded as the referenced row's current state.
* `timezone.now()` is passed in as an abstract timestamp `now : ℕ`.
* Database writes become functional state updates; the append-only
  `CreditTransaction` table of one account becomes a `List` in `created_at`
  order (append at the tail).
* The float round-trip `float(transaction.amount)` followed by
  `int(amount * 100)` in `services.py` is embedded as exact arithmetic
  (`Int.floor (amount * 100)`); the claims under study do not depend on
  binary floating-point artifacts.
-/

namespace Kawadiwala

/-! ## Decimal rounding (`decimal` module semantics) -/

/-- Round a rational to an integer, ties to the even integer: the rounding
performed by `Decimal.quantize` under the default `ROUND_HALF_EVEN` mode. -/
def roundHalfEvenInt (q : ℚ) : ℤ :=
  if q - ⌊q⌋ < 1/2 then ⌊q⌋
  else if (1:ℚ)/2 < q - ⌊q⌋ then ⌊q⌋ + 1
  else if ⌊q⌋ % 2 = 0 then ⌊q⌋ else ⌊q⌋ + 1

/-- Round a rational to an integer, ties away from zero: the rounding the
spec prescribes ("round half up", `ROUND_HALF_UP` in `decimal` terms). -/
def roundHalfUpInt (q : ℚ) : ℤ :=
  if 0 ≤ q then (if (1:ℚ)/2 ≤ q - ⌊q⌋ then ⌊q⌋ + 1 else ⌊q⌋)
  else (if (1:ℚ)/2 ≤ -q - ⌊-q⌋ then -(⌊-q⌋ + 1) else -⌊-q⌋)

/-- `x.quantize(Decimal('0.01'))` with the default context:
round to two decimal places, ties to even. -/
def quantize2HalfEven (q : ℚ) : ℚ := (roundHalfEvenInt (q * 100) : ℚ) / 100

/-- Rounding to two decimal places with ties away from zero — the rounding
the spec's words ("round half up to 2 decimals") describe. -/
def quantize2HalfUp (q : ℚ) : ℚ := (roundHalfUpInt (q * 100) : ℚ) / 100

/-! ## `core/models.py` — `Transaction` (settlement entity) -/

/-- The fields of `core.models.Transaction` the claims touch.
`amount` and `collector_commission` are `Decimal` columns; `payment_status`
is one of pending/processing/completed/failed/refunded/cancelled. -/
structure Transaction where
  amount : ℚ
  collector_commission : ℚ
  payment_method : String
  payment_status : String
  is_paid : Bool
  payment_completed_at : Option ℕ
  deriving Repr, DecidableEq

/-- `Transaction.save` (models.py 161-168): canonicalizes `amount` to
`Decimal` (a no-op in the `ℚ` embedding) and recomputes
`collector_commission = (amount * Decimal('0.10')).quantize(Decimal('0.01'))`
on every save. -/
def Transaction.save (t : Transaction) : Transaction :=
  { t with collector_commission := quantize2HalfEven (t.amount * (1/10)) }

/-! ## `core/models.py` — `WasteCategory` and `PickupRequest` -/

/-- `core.models.WasteCategory`: `rate_per_kg` is a `Decimal` column. -/
structure WasteCategory where
  rate_per_kg : ℚ
  is_active : Bool
  deriving Repr, DecidableEq

/-- The fields of `core.models.PickupRequest` the claims touch.
`waste_category` embeds the current state of the referenced category row,
so editing the category's rate between two saves is modelled by changing
this field. -/
structure PickupRequest where
  waste_category : WasteCategory
  estimated_weight_kg : ℚ
  actual_weight_kg : Option ℚ
  status : String
  completed_at : Option ℕ
  estimated_price : ℚ
  actual_price : Option ℚ
  deriving Repr, DecidableEq

/-- `PickupRequest.save` (models.py 84-101): always recomputes
`estimated_price` from the category's current rate; when `actual_weight_kg`
is set and truthy (Python: `Decimal('0')` is falsy) recomputes
`actual_price = actual_weight_kg * waste_category.rate_per_kg` from the
category's current rate; stamps `completed_at` on the first save with
status completed.  No `quantize` is applied to either price. -/
def PickupRequest.save (now : ℕ) (p : PickupRequest) : PickupRequest :=
  let p := { p with estimated_price := p.estimated_weight_kg * p.waste_category.rate_per_kg }
  let p :=
    match p.actual_weight_kg with
    | some w =>
        if w ≠ 0 then
          { p with actual_price := some (w * p.waste_category.rate_per_kg) }
        else p
    | none => p
  if p.status = "completed" ∧ p.completed_at = none then
    { p with completed_at := some now }
  else p

/-- Replace the rate of the category row a pickup references: the effect,
seen from the pickup, of an admin editing `WasteCategory.rate_per_kg`
after the pickup's weight was finalized. -/
def PickupRequest.withRate (p : PickupRequest) (r : ℚ) : PickupRequest :=
  { p with waste_category := { p.waste_category with rate_per_kg := r } }

/-! ## `core/models.py` — credit account, ledger, purchases -/

/-- The fields of `core.models.CollectorCreditAccount` the claims touch. -/
structure CollectorCreditAccount where
  current_balance : ℚ
  total_purchased : ℚ
  total_used : ℚ
  is_active : Bool
  low_balance_threshold : ℚ
  daily_usage_limit : ℚ
  last_transaction_date : Option ℕ
  deriving Repr, DecidableEq

/-- One row of `core.models.CreditTransaction` (the append-only ledger). -/
structure CreditTransactionRow where
  transaction_type : String
  amount : ℚ
  balance_before : ℚ
  balance_after : ℚ
  description : String
  deriving Repr, DecidableEq

/-- A collector's credit account together with its `CreditTransaction`
rows in `created_at` (append) order. -/
structure LedgerState where
  account : CollectorCreditAccount
  log : List CreditTransactionRow
  deriving Repr, DecidableEq

/-- A freshly created `CollectorCreditAccount` row with the model-field
defaults of models.py 330-346 (balance 0, active, threshold 100,
daily limit 5000) and no ledger rows. -/
def initialLedgerState : LedgerState :=
  { account :=
      { current_balance := 0
        total_purchased := 0
        total_used := 0
        is_active := true
        low_balance_threshold := 100
        daily_usage_limit := 5000
        last_transaction_date := none }
    log := [] }

/-- `CollectorCreditAccount.objects.get_or_create(collector=...)`:
returns the existing account state, or a fresh default row. -/
def getOrCreateAccount (s : Option LedgerState) : LedgerState :=
  s.getD initialLedgerState

/-- `has_sufficient_balance` (models.py 348-350):
`self.current_balance >= amount and self.is_active`. -/
def has_sufficient_balance (acct : CollectorCreditAccount) (amount : ℚ) : Bool :=
  decide (amount ≤ acct.current_balance) && acct.is_active

/-- `deduct_credits` (models.py 352-372): when `has_sufficient_balance`,
decrements the balance, increments `total_used`, stamps
`last_transaction_date`, appends a debit `CreditTransaction` row carrying
`balance_before`/`balance_after`, and returns `True`; otherwise returns
`False` and performs no write at all. -/
def deduct_credits (s : LedgerState) (amount : ℚ) (now : ℕ)
    (description : String := "Payment to customer") : LedgerState × Bool :=
  if has_sufficient_balance s.account amount then
    let balance_before := s.account.current_balance
    let acct :=
      { s.account with
          current_balance := balance_before - amount
          total_used := s.account.total_used + amount
          last_transaction_date := some now }
    ({ account := acct
       log := s.log ++
         [{ transaction_type := "debit"
            amount := amount
            balance_before := balance_before
            balance_after := acct.current_balance
            description := description }] }, true)
  else (s, false)

/-- `add_credits` (models.py 374-389): unconditionally increments the
balance and `total_purchased` and appends a credit `CreditTransaction`
row.  (`last_transaction_date` is not touched here.) -/
def add_credits (s : LedgerState) (amount : ℚ)
    (description : String := "Credit purchase") : LedgerState :=
  let balance_before := s.account.current_balance
  let acct :=
    { s.account with
        current_balance := balance_before + amount
        total_purchased := s.account.total_purchased + amount }
  { account := acct
    log := s.log ++
      [{ transaction_type := "credit"
         amount := amount
         balance_before := balance_before
         balance_after := acct.current_balance
         description := description }] }

/-- The fields of `core.models.CreditPurchase` the claims touch. -/
structure CreditPurchase where
  amount_paid : ℚ
  credits_received : ℚ
  bonus_credits : ℚ
  package_name : String
  payment_method : String
  payment_reference : String
  payment_status : String
  completed_at : Option ℕ
  deriving Repr, DecidableEq

/-- `CreditPurchase.complete_purchase` (models.py 425-442): only acts when
`payment_status == 'pending'`; then get-or-creates the collector's credit
account, calls `add_credits(credits_received + bonus_credits, ...)`, sets
the status to completed, stamps `completed_at` and returns `True`.  From
any other status it returns `False`, touching neither the purchase row nor
the account (in particular no `get_or_create` happens, hence the
`Option LedgerState` result). -/
def complete_purchase (p : CreditPurchase) (s : Option LedgerState) (now : ℕ) :
    CreditPurchase × Option LedgerState × Bool :=
  if p.payment_status = "pending" then
    let credit_account := getOrCreateAccount s
    let total_credits := p.credits_received + p.bonus_credits
    let s' := add_credits credit_account total_credits
      ("Credit purchase - " ++ p.package_name)
    ({ p with payment_status := "completed", completed_at := some now }, some s', true)
  else (p, s, false)

/-! ## `core/services.py` — payment gateway adapter -/

/-- The Khalti `epayment/lookup` response as the code consumes it: either a
request exception turned into an error dict (services.py 238-251), or a
parsed JSON body, of which the code reads `status` and `total_amount`
(an amount in paisa). -/
inductive LookupOutcome where
  | err (detail : String)
  | ok (status : String) (total_amount : ℤ)
  deriving Repr, DecidableEq

/-- `PaymentGatewayService.verify_khalti_payment` (services.py 187-251),
given the network outcome of the lookup call.  On success, when an
expected amount is supplied, the code compares `int(amount * 100)` with
the response's `total_amount`; a mismatch only emits
`logger.warning(...)` — the response is returned unchanged either way.
The returned `Bool` is the "a mismatch warning was logged" observation;
no caller reads it, mirroring the source. -/
def verify_khalti_payment (amount : Option ℚ) (lookup : LookupOutcome) :
    LookupOutcome × Bool :=
  match lookup with
  | .err detail => (.err detail, false)
  | .ok status total_amount =>
      (.ok status total_amount,
        match amount with
        | some a => decide (⌊a * 100⌋ ≠ total_amount)
        | none => false)

/-- Does the dict returned by `verify_khalti_payment` contain an `error`
key?  (`'error' not in verification_result` in the views.) -/
def LookupOutcome.hasError : LookupOutcome → Bool
  | .err _ => true
  | .ok _ _ => false

/-- `verification_result.get('status')` of a lookup outcome
(an error dict has no `status` key, modelled as `none`). -/
def LookupOutcome.statusField : LookupOutcome → Option String
  | .err _ => none
  | .ok status _ => some status

/-! ## `core/payment_views.py` — verification endpoints -/

/-- `khalti_payment_verify` (payment_views.py 360-414), the branch for a
regular `Transaction` found by `gateway_transaction_id = pidx`: calls
`verify_khalti_payment(pidx, float(transaction.amount))`; when the result
has no `error` key and `status == 'Completed'`, marks the transaction
completed and paid (then `Transaction.save` recomputes the commission),
and marks the pickup completed via `PickupRequest.save`.  The mismatch
warning computed inside the service is discarded.  Returns the updated
transaction and pickup plus the "payment successful" flag. -/
def khalti_payment_verify_tx (t : Transaction) (pk : PickupRequest)
    (lookup : LookupOutcome) (now : ℕ) : Transaction × PickupRequest × Bool :=
  let verification_result := (verify_khalti_payment (some t.amount) lookup).1
  if verification_result.hasError = false ∧
      verification_result.statusField = some "Completed" then
    let t' := Transaction.save
      { t with payment_status := "completed", is_paid := true,
               payment_completed_at := some now }
    let pk' := PickupRequest.save now { pk with status := "completed" }
    (t', pk', true)
  else
    (t, pk, false)

/-- `khalti_credit_callback` (payment_views.py 299-357), after the
`CreditPurchase` was found by `payment_reference = pidx`: calls
`verify_khalti_payment(pidx, float(credit_purchase.amount_paid))`; when
the result has no `error` key and `status == 'Completed'` it runs
`credit_purchase.complete_purchase()`; otherwise it unconditionally sets
`payment_status = 'failed'` and saves — whatever the current status was.
Returns the updated purchase, the (possibly untouched) account state and
the value `complete_purchase` returned (`false` when it was not run). -/
def khalti_credit_callback (p : CreditPurchase) (s : Option LedgerState)
    (lookup : LookupOutcome) (now : ℕ) :
    CreditPurchase × Option LedgerState × Bool :=
  let verification_result := (verify_khalti_payment (some p.amount_paid) lookup).1
  if verification_result.hasError = false ∧
      verification_result.statusField = some "Completed" then
    complete_purchase p s now
  else
    ({ p with payment_status := "failed" }, s, false)

/-! ## `core/services.py` — payment initiation traces

For the temporal claim about audit logging, each `initiate_*` entry point
is embedded as the sequence of externally visible events it performs, in
program order. -/

/-- The events an initiation performs that the audit claim talks about. -/
inductive GatewayEvent where
  | logCreated (gateway_name : String)
  | networkCall (url : String)
  deriving Repr, DecidableEq

/-- Is an event a `PaymentGatewayLog.objects.create(...)`? -/
def GatewayEvent.isLogCreated : GatewayEvent → Bool
  | .logCreated _ => true
  | .networkCall _ => false

/-- `PaymentGatewayService.initiate_esewa_payment` (services.py 20-62):
creates a `PaymentGatewayLog` row for gateway `esewa`, marks the
transaction processing (re-running `Transaction.save`), and returns the
eSewa form-post target; the server itself performs no network call (the
browser is redirected).  Result: event trace, updated transaction,
returned `payment_url`. -/
def initiate_esewa_payment (t : Transaction) :
    List GatewayEvent × Transaction × String :=
  ([.logCreated "esewa"],
   Transaction.save { t with payment_status := "processing" },
   "https://uat.esewa.com.np/epay/main")

/-- The Khalti initiation endpoint URL (services.py 83). -/
def khaltiInitiateUrl : String := "https://a.khalti.com/api/v2/epayment/initiate/"

/-- What `requests.post` to the Khalti initiate endpoint produced:
a parsed body `(pidx, payment_url)` or a request exception detail. -/
inductive KhaltiNetOutcome where
  | ok (pidx : String) (payment_url : String)
  | exn (detail : String)
  deriving Repr, DecidableEq

/-- `PaymentGatewayService.initiate_khalti_payment` (services.py 64-170),
given whether `KHALTI_SECRET_KEY` is configured and the network outcome:
with no key it returns a configuration error without calling out; with a
key it performs the `requests.post` — creating no `PaymentGatewayLog` row
at any point — and returns either the parsed response or an error dict.
Result: event trace and whether an `error` key is in the returned dict. -/
def initiate_khalti_payment (secret_key_configured : Bool)
    (net : KhaltiNetOutcome) : List GatewayEvent × Bool :=
  if secret_key_configured = false then
    ([], true)
  else
    match net with
    | .ok _ _ => ([.networkCall khaltiInitiateUrl], false)
    | .exn _ => ([.networkCall khaltiInitiateUrl], true)

/-! ## Ledger replay machinery

The only code paths that mutate a `CollectorCreditAccount` and its
`CreditTransaction` rows are `deduct_credits` and `add_credits`
(models.py 352-389); a history of an account is a sequence of such calls
applied to a freshly created row. -/

/-- One balance-mutating call on a credit account. -/
inductive LedgerOp where
  | deduct (amount : ℚ) (now : ℕ) (description : String)
  | add (amount : ℚ) (description : String)
  deriving Repr, DecidableEq

/-- Run one ledger operation (a failed `deduct_credits` leaves the state
as it was, matching the source's no-side-effect failure path). -/
def applyLedgerOp (s : LedgerState) : LedgerOp → LedgerState
  | .deduct amount now description => (deduct_credits s amount now description).1
  | .add amount description => add_credits s amount description

/-- Run a history of ledger operations in order. -/
def applyLedgerOps (s : LedgerState) (ops : List LedgerOp) : LedgerState :=
  ops.foldl applyLedgerOp s

/-- The signed amount a ledger row contributes when replaying the log:
negative for a debit row, positive for a credit row. -/
def signedAmount (r : CreditTransactionRow) : ℚ :=
  if r.transaction_type = "debit" then -r.amount else r.amount

/-- Sum of the signed amounts of a log in `created_at` order. -/
def signedSum (log : List CreditTransactionRow) : ℚ :=
  (log.map signedAmount).sum

/-- A ledger row is well-formed when `balance_after - balance_before`
is `-amount` for a debit and `+amount` for a credit. -/
def rowOK (r : CreditTransactionRow) : Prop :=
  (r.transaction_type = "debit" ∧ r.balance_after = r.balance_before - r.amount) ∨
  (r.transaction_type = "credit" ∧ r.balance_after = r.balance_before + r.amount)

/-- Overwrite the `daily_usage_limit` column of an account, leaving
everything else in place: used to state that `deduct_credits` never reads
this field. -/
def setDailyLimit (s : LedgerState) (lim : ℚ) : LedgerState :=
  { s with account := { s.account with daily_usage_limit := lim } }

/-! ## Concrete fixtures used by witnesses and counterexamples -/

/-- A Rs 500 Khalti transaction awaiting verification. -/
def tx500 : Transaction :=
  { amount := 500, collector_commission := 50, payment_method := "khalti",
    payment_status := "pending", is_paid := false, payment_completed_at := none }

/-- A Rs 5.25 transaction: `5.25 * 0.10 = 0.525` sits exactly on a
half-cent, separating the two rounding modes. -/
def tx525 : Transaction :=
  { amount := 21/4, collector_commission := 0, payment_method := "cash",
    payment_status := "pending", is_paid := false, payment_completed_at := none }

/-- A pickup of 2 kg of a category currently rated Rs 10/kg. -/
def pkSample : PickupRequest :=
  { waste_category := { rate_per_kg := 10, is_active := true },
    estimated_weight_kg := 3, actual_weight_kg := some 2,
    status := "in_progress", completed_at := none,
    estimated_price := 0, actual_price := none }

/-- An active credit account holding a balance of Rs 100. -/
def acct100 : LedgerState :=
  { account :=
      { current_balance := 100, total_purchased := 100, total_used := 0,
        is_active := true, low_balance_threshold := 100,
        daily_usage_limit := 5000, last_transaction_date := none }
    log := [] }

/-- A pending Starter Pack purchase: pay 1000, receive 900 + 50 bonus. -/
def starterPurchase : CreditPurchase :=
  { amount_paid := 1000, credits_received := 900, bonus_credits := 50,
    package_name := "Starter Pack", payment_method := "khalti",
    payment_reference := "pidx123", payment_status := "pending",
    completed_at := none }

/-- The Starter Pack purchase after a successful completion. -/
def completedStarter : CreditPurchase :=
  { starterPurchase with payment_status := "completed", completed_at := some 0 }

/-! ## Theorems -/

/-- `roundHalfEvenInt` rounds to a nearest integer, and on the half-way
case it picks the even one. -/
theorem roundHalfEvenInt_spec (q : ℚ) :
    |(roundHalfEvenInt q : ℚ) - q| ≤ 1/2 ∧
    (|(roundHalfEvenInt q : ℚ) - q| = 1/2 → roundHalfEvenInt q % 2 = 0) := by
  have hfl : (⌊q⌋ : ℚ) ≤ q := Int.floor_le q
  have hfu : q < ⌊q⌋ + 1 := Int.lt_floor_add_one q
  unfold roundHalfEvenInt
  by_cases h1 : q - ⌊q⌋ < 1/2
  · simp only [if_pos h1]
    constructor
    · rw [abs_sub_comm, abs_of_nonneg (by linarith)]
      linarith
    · intro habs
      rw [abs_sub_comm, abs_of_nonneg (by linarith)] at habs
      linarith
  · simp only [if_neg h1]
    by_cases h2 : (1:ℚ)/2 < q - ⌊q⌋
    · simp only [if_pos h2]
      constructor
      · push_cast
        rw [abs_of_nonneg (by linarith)]
        linarith
      · intro habs
        push_cast at habs
        rw [abs_of_nonneg (by linarith)] at habs
        linarith
    · have heq : q - ⌊q⌋ = 1/2 := le_antisymm (not_lt.1 h2) (not_lt.1 h1)
      simp only [if_neg h2]
      by_cases h3 : ⌊q⌋ % 2 = 0
      · simp only [if_pos h3]
        refine ⟨?_, fun _ => h3⟩
        rw [abs_sub_comm, abs_of_nonneg (by linarith)]
        linarith
      · simp only [if_neg h3]
        constructor
        · push_cast
          rw [abs_of_nonneg (by linarith)]
          linarith
        · intro _
          omega

/-- `quantize2HalfEven` lands on an exact multiple of a cent that is
nearest to its argument; a half-cent tie goes to the even cent count. -/
theorem quantize2HalfEven_char (q : ℚ) :
    ∃ n : ℤ, quantize2HalfEven q = (n:ℚ)/100 ∧
      |(n:ℚ)/100 - q| ≤ 1/200 ∧ (|(n:ℚ)/100 - q| = 1/200 → n % 2 = 0) := by
  refine ⟨roundHalfEvenInt (q * 100), rfl, ?_, ?_⟩
  all_goals
    have h := roundHalfEvenInt_spec (q * 100)
    have key : |(roundHalfEvenInt (q * 100) : ℚ)/100 - q| =
        |(roundHalfEvenInt (q * 100) : ℚ) - q * 100| / 100 := by
      rw [show (roundHalfEvenInt (q * 100) : ℚ)/100 - q =
            ((roundHalfEvenInt (q * 100) : ℚ) - q * 100) / 100 by ring,
          abs_div]
      norm_num
  · rw [key]
    linarith [h.1]
  · rw [key]
    intro habs
    exact h.2 (by linarith)

/-- Claim C5 (counterexample): for the Rs 5.25 transaction, `save` stores
`collector_commission = 0.52` (ties-to-even), while rounding
`amount * 0.10 = 0.525` half-up as the claim states would give `0.53`. -/
theorem commission_not_half_up_at_525 :
    (Transaction.save tx525).collector_commission = 13/25 ∧
    quantize2HalfUp (tx525.amount * (1/10)) = 53/100 ∧
    (Transaction.save tx525).collector_commission ≠
      quantize2HalfUp (tx525.amount * (1/10)) := by
  refine ⟨?_, ?_, ?_⟩ <;>
    norm_num [Transaction.save, tx525, quantize2HalfEven, quantize2HalfUp,
      roundHalfEvenInt, roundHalfUpInt]

/-- Claim C5 (amended): on every save, `collector_commission` is set to
`amount * 0.10` quantized to two decimals with ROUND_HALF_EVEN (the
`decimal` default), i.e. a nearest cent with half-cent ties going to an
even cent count — not round-half-up; the commission is recomputed from
the current amount on every save, so a second save after the amount
changed tracks the new amount. -/
theorem commission_half_even_every_save (t : Transaction) (a' : ℚ) :
    (Transaction.save t).amount = t.amount ∧
    (Transaction.save t).collector_commission = quantize2HalfEven (t.amount * (1/10)) ∧
    (∃ n : ℤ, (Transaction.save t).collector_commission = (n:ℚ)/100 ∧
      |(n:ℚ)/100 - t.amount * (1/10)| ≤ 1/200 ∧
      (|(n:ℚ)/100 - t.amount * (1/10)| = 1/200 → n % 2 = 0)) ∧
    (Transaction.save { Transaction.save t with amount := a' }).collector_commission =
      quantize2HalfEven (a' * (1/10)) := by
  exact ⟨rfl, rfl, quantize2HalfEven_char (t.amount * (1/10)), rfl⟩

/-- Witness for `commission_half_even_every_save` at the Rs 500
transaction: the stored commission is Rs 50. -/
theorem commission_half_even_every_save_witness :
    (Transaction.save tx500).collector_commission = quantize2HalfEven (tx500.amount * (1/10)) ∧
    (Transaction.save tx500).collector_commission = 50 := by
  refine ⟨(commission_half_even_every_save tx500 0).2.1, ?_⟩
  norm_num [Transaction.save, tx500, quantize2HalfEven, roundHalfEvenInt]

/-- Saving a pickup whose `actual_weight_kg` is set and non-zero stores
`actual_price = actual_weight_kg * waste_category.rate_per_kg` computed
from the category rate the pickup row currently references, and leaves
the weight and category fields untouched. -/
theorem save_sets_actual_price (p : PickupRequest) (w : ℚ) (now : ℕ)
    (hw : p.actual_weight_kg = some w) (hw0 : w ≠ 0) :
    (PickupRequest.save now p).actual_price = some (w * p.waste_category.rate_per_kg) ∧
    (PickupRequest.save now p).actual_weight_kg = some w ∧
    (PickupRequest.save now p).waste_category = p.waste_category := by
  unfold PickupRequest.save
  simp only [hw, hw0, if_true, ne_eq, not_false_eq_true, if_pos]
  split <;> simp

/-- Claim C6 (counterexample): the 2 kg pickup saved at rate Rs 10/kg
stores `actual_price = 20.00`; after the category rate is edited to
Rs 12/kg, the next save overwrites the stored price with `24.00` — the
price is retroactively recomputed, not frozen. -/
theorem actual_price_not_frozen_at_rate_change :
    (PickupRequest.save 0 pkSample).actual_price = some 20 ∧
    (PickupRequest.save 1 ((PickupRequest.save 0 pkSample).withRate 12)).actual_price = some 24 ∧
    some (24:ℚ) ≠ some (20:ℚ) := by
  refine ⟨?_, ?_, by norm_num⟩ <;>
  · simp +decide only [PickupRequest.save, PickupRequest.withRate, pkSample]
    norm_num

/-- Claim C6 (amended): whenever `actual_weight_kg` is set and non-zero,
every save recomputes `actual_price` as the exact (unrounded) product of
the weight with the category rate the row references at that save, so a
save performed after the category's `rate_per_kg` changed overwrites the
stored price using the new rate. -/
theorem actual_price_tracks_current_rate (p : PickupRequest) (w r' : ℚ)
    (now now' : ℕ) (hw : p.actual_weight_kg = some w) (hw0 : w ≠ 0) :
    (PickupRequest.save now p).actual_price = some (w * p.waste_category.rate_per_kg) ∧
    (PickupRequest.save now' ((PickupRequest.save now p).withRate r')).actual_price =
      some (w * r') := by
  obtain ⟨h1, h2, _⟩ := save_sets_actual_price p w now hw hw0
  have hw' : ((PickupRequest.save now p).withRate r').actual_weight_kg = some w := h2
  have hrate : ((PickupRequest.save now p).withRate r').waste_category.rate_per_kg = r' := rfl
  obtain ⟨h3, _, _⟩ := save_sets_actual_price _ w now' hw' hw0
  exact ⟨h1, by rw [h3, hrate]⟩

/-- Witness for `actual_price_tracks_current_rate` at the 2 kg sample
pickup with the rate edited from 10 to 12 between the saves. -/
theorem actual_price_tracks_current_rate_witness :
    (PickupRequest.save 0 pkSample).actual_price =
      some (2 * pkSample.waste_category.rate_per_kg) ∧
    (PickupRequest.save 1 ((PickupRequest.save 0 pkSample).withRate 12)).actual_price =
      some (2 * 12) :=
  actual_price_tracks_current_rate pkSample 2 12 0 1 (by norm_num [pkSample]) (by norm_num)

/-- Claim C3: `deduct_credits` succeeds exactly when the account is active
and the balance covers the amount; on the complement it returns `False`
and the whole state — balance, `total_used`, `last_transaction_date` and
the `CreditTransaction` log — is exactly what it was. -/
theorem deduct_credits_guard (s : LedgerState) (amount : ℚ) (now : ℕ) (d : String) :
    ((deduct_credits s amount now d).2 = true ↔
      (s.account.is_active = true ∧ amount ≤ s.account.current_balance)) ∧
    (¬(s.account.is_active = true ∧ amount ≤ s.account.current_balance) →
      deduct_credits s amount now d = (s, false)) := by
  have hiff : has_sufficient_balance s.account amount = true ↔
      (s.account.is_active = true ∧ amount ≤ s.account.current_balance) := by
    simp [has_sufficient_balance, and_comm]
  by_cases hb : has_sufficient_balance s.account amount = true
  · exact ⟨by simp [deduct_credits, hb, hiff.mp hb],
      fun hcon => absurd (hiff.mp hb) hcon⟩
  · have hres : deduct_credits s amount now d = (s, false) := by
      simp [deduct_credits, hb]
    have hprop : ¬(s.account.is_active = true ∧ amount ≤ s.account.current_balance) :=
      fun hc => hb (hiff.mpr hc)
    exact ⟨by rw [hres]; simpa using hprop, fun _ => hres⟩

/-- Witness for `deduct_credits_guard`: deducting Rs 150 from the active
account holding Rs 100 fails and returns the state unchanged. -/
theorem deduct_credits_guard_witness :
    deduct_credits acct100 150 5 "Payment to customer" = (acct100, false) :=
  (deduct_credits_guard acct100 150 5 "Payment to customer").2
    (by norm_num [acct100])

/-- Appending one row extends the signed sum by the row's signed amount. -/
theorem signedSum_append (log : List CreditTransactionRow) (r : CreditTransactionRow) :
    signedSum (log ++ [r]) = signedSum log + signedAmount r := by
  simp [signedSum]

/-- One `deduct_credits`/`add_credits` call preserves the ledger
invariant: every row satisfies `rowOK` and the signed sum of the log
equals the current balance. -/
theorem ledger_inv_step (s : LedgerState) (op : LedgerOp)
    (h : (∀ r ∈ s.log, rowOK r) ∧ signedSum s.log = s.account.current_balance) :
    (∀ r ∈ (applyLedgerOp s op).log, rowOK r) ∧
      signedSum (applyLedgerOp s op).log =
        (applyLedgerOp s op).account.current_balance := by
  obtain ⟨hrows, hsum⟩ := h
  cases op with
  | add amount d =>
      constructor
      · intro r hr
        simp only [applyLedgerOp, add_credits, List.mem_append,
          List.mem_singleton] at hr
        rcases hr with hr | hr
        · exact hrows r hr
        · subst hr
          exact Or.inr ⟨rfl, rfl⟩
      · have hlog : (applyLedgerOp s (.add amount d)).log = s.log ++
            [⟨"credit", amount, s.account.current_balance,
              s.account.current_balance + amount, d⟩] := rfl
        rw [hlog, signedSum_append, hsum]
        have hsa : signedAmount ⟨"credit", amount, s.account.current_balance,
            s.account.current_balance + amount, d⟩ = amount := by
          simp +decide [signedAmount]
        rw [hsa]
        rfl
  | deduct amount now d =>
      by_cases hb : has_sufficient_balance s.account amount = true
      · constructor
        · intro r hr
          simp only [applyLedgerOp, deduct_credits, hb, if_true,
            List.mem_append, List.mem_singleton] at hr
          rcases hr with hr | hr
          · exact hrows r hr
          · subst hr
            exact Or.inl ⟨rfl, rfl⟩
        · have hlog : (applyLedgerOp s (.deduct amount now d)).log = s.log ++
              [⟨"debit", amount, s.account.current_balance,
                s.account.current_balance - amount, d⟩] := by
            simp [applyLedgerOp, deduct_credits, hb]
          rw [hlog, signedSum_append, hsum]
          have hsa : signedAmount ⟨"debit", amount, s.account.current_balance,
              s.account.current_balance - amount, d⟩ = -amount := by
            simp +decide [signedAmount]
          rw [hsa]
          have hbal : (applyLedgerOp s (.deduct amount now d)).account.current_balance =
              s.account.current_balance - amount := by
            simp [applyLedgerOp, deduct_credits, hb]
          rw [hbal]
          ring
      · have hid : applyLedgerOp s (.deduct amount now d) = s := by
          simp [applyLedgerOp, deduct_credits, hb]
        rw [hid]
        exact ⟨hrows, hsum⟩

/-- Claim C4: starting from a freshly created account, after any sequence
of `deduct_credits`/`add_credits` calls every `CreditTransaction` row
satisfies `balance_after - balance_before = -amount` (debit) or
`+amount` (credit), and replaying the log in `created_at` order by
summing signed amounts reproduces `current_balance`. -/
theorem ledger_replay_reconstructs_balance (ops : List LedgerOp) :
    (∀ r ∈ (applyLedgerOps initialLedgerState ops).log, rowOK r) ∧
    signedSum (applyLedgerOps initialLedgerState ops).log =
      (applyLedgerOps initialLedgerState ops).account.current_balance := by
  suffices h : ∀ s : LedgerState,
      ((∀ r ∈ s.log, rowOK r) ∧ signedSum s.log = s.account.current_balance) →
      (∀ r ∈ (applyLedgerOps s ops).log, rowOK r) ∧
        signedSum (applyLedgerOps s ops).log =
          (applyLedgerOps s ops).account.current_balance by
    exact h initialLedgerState
      ⟨by simp [initialLedgerState], by simp [initialLedgerState, signedSum]⟩
  induction ops with
  | nil =>
      intro s hs
      simpa [applyLedgerOps] using hs
  | cons op rest ih =>
      intro s hs
      have hstep := ledger_inv_step s op hs
      simpa [applyLedgerOps, List.foldl_cons] using ih (applyLedgerOp s op) hstep

/-- Witness for `ledger_replay_reconstructs_balance`: purchase Rs 500 of
credits then pay Rs 200 to a customer; the replayed sum and the stored
balance agree at Rs 300. -/
theorem ledger_replay_reconstructs_balance_witness :
    signedSum (applyLedgerOps initialLedgerState
        [.add 500 "Credit purchase - Starter Pack",
         .deduct 200 7 "Payment to customer"]).log =
      (applyLedgerOps initialLedgerState
        [.add 500 "Credit purchase - Starter Pack",
         .deduct 200 7 "Payment to customer"]).account.current_balance ∧
    (applyLedgerOps initialLedgerState
        [.add 500 "Credit purchase - Starter Pack",
         .deduct 200 7 "Payment to customer"]).account.current_balance = 300 := by
  refine ⟨(ledger_replay_reconstructs_balance _).2, ?_⟩
  simp +decide only [applyLedgerOps, List.foldl_cons, List.foldl_nil,
    applyLedgerOp, add_credits, deduct_credits, has_sufficient_balance,
    initialLedgerState]
  norm_num

/-- Claim C9: `deduct_credits` never reads `daily_usage_limit`: its
success bit is unchanged under any rewrite of the limit, and for an
active account with a covering balance it succeeds whatever the limit
(and whatever `total_used`/`last_transaction_date` record about earlier
debits, since the state is universally quantified). -/
theorem daily_usage_limit_never_read (s : LedgerState) (lim amount : ℚ)
    (now : ℕ) (d : String) :
    ((deduct_credits (setDailyLimit s lim) amount now d).2 =
      (deduct_credits s amount now d).2) ∧
    (s.account.is_active = true → amount ≤ s.account.current_balance →
      (deduct_credits (setDailyLimit s lim) amount now d).2 = true) := by
  have hcond : has_sufficient_balance (setDailyLimit s lim).account amount =
      has_sufficient_balance s.account amount := rfl
  constructor
  · by_cases hb : has_sufficient_balance s.account amount = true
    · simp [deduct_credits, hcond, hb]
    · simp [deduct_credits, hcond, hb]
  · intro ha hbal
    have hb : has_sufficient_balance s.account amount = true := by
      simp [has_sufficient_balance, ha, hbal]
    simp [deduct_credits, hcond, hb]

/-- Witness for `daily_usage_limit_never_read`: with the limit rewritten
to 0, deducting Rs 100 from the active Rs 100 account still succeeds. -/
theorem daily_usage_limit_never_read_witness :
    (deduct_credits (setDailyLimit acct100 0) 100 42 "Payment to customer").2 = true :=
  (daily_usage_limit_never_read acct100 0 100 42 "Payment to customer").2
    rfl (by norm_num [acct100])

/-- Claim C10: `add_credits(amount)` increments both `current_balance`
and `total_purchased` by exactly `amount`, so completing a pending
purchase raises `total_purchased` by `credits_received + bonus_credits`
(the credit grant, including promotional bonus), independent of
`amount_paid`. -/
theorem total_purchased_counts_credits :
    (∀ (s : LedgerState) (amount : ℚ) (d : String),
      (add_credits s amount d).account.current_balance =
        s.account.current_balance + amount ∧
      (add_credits s amount d).account.total_purchased =
        s.account.total_purchased + amount) ∧
    (∀ (p : CreditPurchase) (os : Option LedgerState) (now : ℕ),
      p.payment_status = "pending" →
      ∃ s', (complete_purchase p os now).2.1 = some s' ∧
        s'.account.total_purchased =
          (getOrCreateAccount os).account.total_purchased +
            (p.credits_received + p.bonus_credits) ∧
        s'.account.current_balance =
          (getOrCreateAccount os).account.current_balance +
            (p.credits_received + p.bonus_credits)) := by
  constructor
  · exact fun s amount d => ⟨rfl, rfl⟩
  · intro p os now hp
    refine ⟨add_credits (getOrCreateAccount os)
        (p.credits_received + p.bonus_credits)
        ("Credit purchase - " ++ p.package_name), ?_, rfl, rfl⟩
    simp [complete_purchase, hp]

/-- Witness for `total_purchased_counts_credits`: completing the pending
Starter Pack purchase (pay 1000, receive 900 + 50 bonus) raises
`total_purchased` by the 950 credits granted, not by the 1000 paid. -/
theorem total_purchased_counts_credits_witness :
    ∃ s', (complete_purchase starterPurchase none 3).2.1 = some s' ∧
      s'.account.total_purchased =
        (getOrCreateAccount none).account.total_purchased +
          (starterPurchase.credits_received + starterPurchase.bonus_credits) ∧
      s'.account.current_balance =
        (getOrCreateAccount none).account.current_balance +
          (starterPurchase.credits_received + starterPurchase.bonus_credits) :=
  total_purchased_counts_credits.2 starterPurchase none 3 rfl

/-- Claim C2 (counterexample): completing the pending Starter Pack
purchase returns `True`, but the second `complete_purchase` call on the
now-completed purchase returns `False` — the retry is reported as a
failure, not as the "no-op success" the claim states. -/
theorem complete_purchase_second_call_returns_false :
    (complete_purchase starterPurchase none 0).2.2 = true ∧
    (complete_purchase (complete_purchase starterPurchase none 0).1
        (complete_purchase starterPurchase none 0).2.1 1).2.2 = false := by
  constructor <;> simp +decide [complete_purchase, starterPurchase]

/-- Claim C2 (amended): calling `complete_purchase` twice on a pending
purchase credits the account exactly once — the second call is a strict
no-op on both the purchase row and the ledger — but the second call
returns `False` (the same value as a failure), not success. -/
theorem complete_purchase_credits_once (p : CreditPurchase)
    (os : Option LedgerState) (now₁ now₂ : ℕ)
    (hp : p.payment_status = "pending") :
    (complete_purchase p os now₁).2.2 = true ∧
    (complete_purchase (complete_purchase p os now₁).1
        (complete_purchase p os now₁).2.1 now₂) =
      ((complete_purchase p os now₁).1, (complete_purchase p os now₁).2.1, false) ∧
    ∃ s₁, (complete_purchase p os now₁).2.1 = some s₁ ∧
      s₁.account.current_balance =
        (getOrCreateAccount os).account.current_balance +
          (p.credits_received + p.bonus_credits) := by
  have h1 : (complete_purchase p os now₁).1.payment_status = "completed" := by
    simp [complete_purchase, hp]
  refine ⟨by simp [complete_purchase, hp], ?_, ?_⟩
  · have hfst : (complete_purchase p os now₁).1 =
        { p with payment_status := "completed", completed_at := some now₁ } := by
      simp [complete_purchase, hp]
    rw [hfst]
    simp +decide [complete_purchase]
  · refine ⟨add_credits (getOrCreateAccount os)
        (p.credits_received + p.bonus_credits)
        ("Credit purchase - " ++ p.package_name), ?_, rfl⟩
    simp [complete_purchase, hp]

/-- Witness for `complete_purchase_credits_once` at the Starter Pack
purchase. -/
theorem complete_purchase_credits_once_witness :
    (complete_purchase starterPurchase none 0).2.2 = true ∧
    (complete_purchase (complete_purchase starterPurchase none 0).1
        (complete_purchase starterPurchase none 0).2.1 1) =
      ((complete_purchase starterPurchase none 0).1,
       (complete_purchase starterPurchase none 0).2.1, false) :=
  ⟨(complete_purchase_credits_once starterPurchase none 0 1 rfl).1,
   (complete_purchase_credits_once starterPurchase none 0 1 rfl).2.1⟩

/-- Claim C7 (counterexample): a repeated gateway callback whose
verification fails (here: a network error during the lookup) moves an
already-completed purchase to `failed` — `completed` is not terminal. -/
theorem completed_purchase_moved_to_failed :
    completedStarter.payment_status = "completed" ∧
    (khalti_credit_callback completedStarter (some acct100)
        (.err "ConnectionError") 9).1.payment_status = "failed" := by
  constructor
  · rfl
  · simp +decide [khalti_credit_callback, verify_khalti_payment,
      LookupOutcome.hasError, LookupOutcome.statusField]

/-- The verification result the gateway service hands back is the lookup
outcome itself (the mismatch warning is carried separately and ignored). -/
theorem verify_result_is_lookup (amount : Option ℚ) (lookup : LookupOutcome) :
    (verify_khalti_payment amount lookup).1 = lookup := by
  cases lookup <;> rfl

/-- Claim C7 (amended): `complete_purchase` itself never leaves
`completed`/`failed` (a call from any non-pending state is a strict
no-op returning `False`), and a callback whose verification succeeds just
delegates to `complete_purchase`; but a callback whose verification
fails (an `error` in the result, or a status other than `Completed`)
unconditionally writes `payment_status = 'failed'` — also on an
already-completed purchase, so `completed → failed` is reachable. -/
theorem purchase_state_transitions (p : CreditPurchase)
    (os : Option LedgerState) (lookup : LookupOutcome) (now : ℕ) :
    (p.payment_status ≠ "pending" → complete_purchase p os now = (p, os, false)) ∧
    (¬(lookup.hasError = false ∧ lookup.statusField = some "Completed") →
      (khalti_credit_callback p os lookup now).1.payment_status = "failed" ∧
      (khalti_credit_callback p os lookup now).2.1 = os) ∧
    ((lookup.hasError = false ∧ lookup.statusField = some "Completed") →
      khalti_credit_callback p os lookup now = complete_purchase p os now) := by
  refine ⟨?_, ?_, ?_⟩
  · intro hp
    simp [complete_purchase, hp]
  · intro hv
    constructor <;>
      simp [khalti_credit_callback, verify_result_is_lookup, hv]
  · intro hv
    simp [khalti_credit_callback, verify_result_is_lookup, hv]

/-- Witness for `purchase_state_transitions`: a timeout during a repeated
callback on the completed Starter Pack purchase rewrites its status to
`failed` while leaving the ledger untouched. -/
theorem purchase_state_transitions_witness :
    (khalti_credit_callback completedStarter (some acct100)
        (.err "timeout") 11).1.payment_status = "failed" ∧
    (khalti_credit_callback completedStarter (some acct100)
        (.err "timeout") 11).2.1 = some acct100 :=
  (purchase_state_transitions completedStarter (some acct100)
      (.err "timeout") 11).2.1
    (by simp [LookupOutcome.hasError])

/-- Claim C1 (counterexample): the gateway confirms Rs 499 (49900 paisa)
against the expected Rs 500 transaction; the service notices the mismatch
(the warning bit is `true`) but `khalti_payment_verify` still marks the
transaction `completed` and `is_paid = true` — there is no
`VerificationMismatch` outcome. -/
theorem mismatched_amount_still_marks_paid :
    (verify_khalti_payment (some tx500.amount) (.ok "Completed" 49900)).2 = true ∧
    (khalti_payment_verify_tx tx500 pkSample (.ok "Completed" 49900) 9).1.is_paid = true ∧
    (khalti_payment_verify_tx tx500 pkSample
        (.ok "Completed" 49900) 9).1.payment_status = "completed" := by
  refine ⟨?_, ?_, ?_⟩
  · simp only [verify_khalti_payment, tx500, decide_eq_true_eq]
    norm_num
  all_goals
    simp +decide [khalti_payment_verify_tx, verify_khalti_payment,
      LookupOutcome.hasError, LookupOutcome.statusField, Transaction.save]

/-- Claim C1 (amended): for a lookup with status `Completed` and no
error, `khalti_payment_verify` marks the transaction paid and completed
whatever amount the gateway confirmed — the outcome is identical to the
matching-amount outcome; the amount comparison only produces a warning
bit that no caller reads; only an error outcome leaves the transaction
untouched. -/
theorem gateway_verify_ignores_amount (t : Transaction) (pk : PickupRequest)
    (now : ℕ) (total : ℤ) (d : String) :
    ((khalti_payment_verify_tx t pk (.ok "Completed" total) now).1.is_paid = true ∧
     (khalti_payment_verify_tx t pk
        (.ok "Completed" total) now).1.payment_status = "completed") ∧
    (khalti_payment_verify_tx t pk (.ok "Completed" total) now =
      khalti_payment_verify_tx t pk (.ok "Completed" ⌊t.amount * 100⌋) now) ∧
    ((verify_khalti_payment (some t.amount) (.ok "Completed" total)).2 =
      decide (⌊t.amount * 100⌋ ≠ total)) ∧
    (khalti_payment_verify_tx t pk (.err d) now = (t, pk, false)) := by
  have hres : ∀ tot : ℤ, khalti_payment_verify_tx t pk (.ok "Completed" tot) now =
      (Transaction.save
        { t with payment_status := "completed", is_paid := true,
                 payment_completed_at := some now },
       PickupRequest.save now { pk with status := "completed" }, true) := by
    intro tot
    simp +decide [khalti_payment_verify_tx, verify_khalti_payment,
      LookupOutcome.hasError, LookupOutcome.statusField]
  refine ⟨⟨?_, ?_⟩, ?_, rfl, ?_⟩
  · rw [hres total]
    rfl
  · rw [hres total]
    rfl
  · rw [hres total, hres ⌊t.amount * 100⌋]
  · simp [khalti_payment_verify_tx, verify_result_is_lookup,
      LookupOutcome.hasError]

/-- Witness for `gateway_verify_ignores_amount`: on the Rs 500
transaction the outcome at confirmed amount 49900 coincides with the
outcome at the matching 50000. -/
theorem gateway_verify_ignores_amount_witness :
    khalti_payment_verify_tx tx500 pkSample (.ok "Completed" 49900) 9 =
      khalti_payment_verify_tx tx500 pkSample (.ok "Completed" 50000) 9 := by
  have h1 := (gateway_verify_ignores_amount tx500 pkSample 9 49900 "e").2.1
  have h2 := (gateway_verify_ignores_amount tx500 pkSample 9 50000 "e").2.1
  have hfl : (⌊tx500.amount * 100⌋ : ℤ) = 50000 := by
    norm_num [tx500]
  rw [h1, h2, hfl]

/-- Claim C8 (counterexample): the Khalti initiation performs the network
call to the initiate endpoint without creating any `PaymentGatewayLog`
row — its event trace is the bare network call. -/
theorem khalti_initiation_creates_no_log :
    (initiate_khalti_payment true (.ok "pidx123" "https://pay.khalti.com/x")).1 =
      [GatewayEvent.networkCall khaltiInitiateUrl] ∧
    ((initiate_khalti_payment true
        (.ok "pidx123" "https://pay.khalti.com/x")).1.all
      fun e => !e.isLogCreated) = true := by
  constructor <;> rfl

/-- Claim C8 (amended): only the eSewa initiation creates a
`PaymentGatewayLog` row, and it performs no server-side network call at
all (its trace is the log creation alone, so the row trivially exists
before any call); the Khalti initiation performs the network call — when
a secret key is configured — and never creates a `PaymentGatewayLog`. -/
theorem payment_initiation_audit_log (t : Transaction) (cfg : Bool)
    (net : KhaltiNetOutcome) :
    (GatewayEvent.logCreated "esewa" ∈ (initiate_esewa_payment t).1 ∧
     ∀ e ∈ (initiate_esewa_payment t).1, e.isLogCreated = true) ∧
    ((∀ e ∈ (initiate_khalti_payment cfg net).1, e.isLogCreated = false) ∧
     (cfg = true →
       GatewayEvent.networkCall khaltiInitiateUrl ∈ (initiate_khalti_payment cfg net).1)) := by
  refine ⟨⟨?_, ?_⟩, ?_, ?_⟩
  · simp [initiate_esewa_payment]
  · intro e he
    simp [initiate_esewa_payment] at he
    subst he
    rfl
  · intro e he
    cases cfg
    · simp [initiate_khalti_payment] at he
    · cases net <;> simp [initiate_khalti_payment] at he <;> subst he <;> rfl
  · intro hcfg
    subst hcfg
    cases net <;> simp [initiate_khalti_payment]

/-- Witness for `payment_initiation_audit_log`: the eSewa trace for the
Rs 500 transaction contains its log row, and the Khalti trace for a
timed-out call still contains the network call (and, by the theorem, no
log row). -/
theorem payment_initiation_audit_log_witness :
    GatewayEvent.logCreated "esewa" ∈ (initiate_esewa_payment tx500).1 ∧
    GatewayEvent.networkCall khaltiInitiateUrl ∈
      (initiate_khalti_payment true (.exn "ReadTimeout")).1 :=
  ⟨(payment_initiation_audit_log tx500 true (.exn "ReadTimeout")).1.1,
   (payment_initiation_audit_log tx500 true (.exn "ReadTimeout")).2.2 rfl⟩

end Kawadiwala
